import Mathlib

set_option autoImplicit false
set_option maxRecDepth 100000

/-!
Shallow embedding of `divio_cli/api_requests.py`: the host-bound session
(`SingleHostSession`), the request contract (`APIRequest`) with its
`verify`/`process` pipeline and error-classification table, and the
composable response strategies (`DjangoFormMixin`, `FileResponse`).
Python dicts are modelled as insertion-ordered association lists, the
class-level mutable error table as explicit state, and raised exceptions
as an `Except` result.
-/

namespace DivioCli

/-- Insertion-ordered association list modelling a Python `dict`. -/
abbrev Dict (κ ν : Type) : Type := List (κ × ν)

/-- Python `d.get(k)` / `d[k]`: the binding for `k`, if any. -/
def dget {κ ν : Type} [DecidableEq κ] (d : Dict κ ν) (k : κ) : Option ν :=
  match d with
  | [] => none
  | (k', v) :: rest => if k' = k then some v else dget rest k

/-- Python `d[k] = v`: overwrite the existing binding in place (keeping its
position) or append a new binding at the end. -/
def dset {κ ν : Type} [DecidableEq κ] (d : Dict κ ν) (k : κ) (v : ν) : Dict κ ν :=
  match d with
  | [] => [(k, v)]
  | (k', v') :: rest => if k' = k then (k', v) :: rest else (k', v') :: dset rest k v

/-- Python `d.update(e)`: apply every binding of `e` to `d`, in order. -/
def dupdate {κ ν : Type} [DecidableEq κ] (d e : Dict κ ν) : Dict κ ν :=
  e.foldl (fun acc kv => dset acc kv.1 kv.2) d

/-- Python string slice `s[:n]` (by characters, as `str` slicing is). -/
def strTake (s : String) (n : Nat) : String := String.mk (s.data.take n)

/-- Python `"\n".join(l)`. -/
def joinNl : List String → String
  | [] => ""
  | [s] => s
  | s :: rest => s ++ "\n" ++ joinNl rest

/-- Python `s.strip(c)` for a single strip character `c`. -/
def pyStrip (c : Char) (s : String) : String :=
  String.mk (((s.data.dropWhile (fun d => d == c)).reverse.dropWhile
    (fun d => d == c)).reverse)

/-- Python `s.replace(old, new, 1)` on character lists: rewrite the first
occurrence of `old` (scanning left to right), leaving everything after it
untouched; when `old` never occurs, the string is unchanged. -/
def listReplaceFirst : List Char → List Char → List Char → List Char
  | [], old, new => if old.isPrefixOf [] then new ++ List.drop old.length [] else []
  | c :: rest, old, new =>
      if old.isPrefixOf (c :: rest) then new ++ List.drop old.length (c :: rest)
      else c :: listReplaceFirst rest old new

/-- Python `s.replace(old, new, 1)`. -/
def pyReplaceFirst (s old new : String) : String :=
  String.mk (listReplaceFirst s.data old.data new.data)

mutual

/-- A decoded JSON value, as produced by `response.json()`. Numbers are
modelled as integers; no endpoint in scope returns fractional numbers.
An object is an insertion-ordered list of fields, as Python dicts are. -/
inductive Json : Type where
  | null : Json
  | bool : Bool → Json
  | num : Int → Json
  | str : String → Json
  | arr : List Json → Json
  | obj : List JField → Json

/-- One `key: value` field of a JSON object. -/
inductive JField : Type where
  | mk : String → Json → JField

end

/-- The key of a JSON object field. -/
def JField.key : JField → String
  | JField.mk k _ => k

/-- The value of a JSON object field. -/
def JField.val : JField → Json
  | JField.mk _ v => v

/-- Python `d[k]` on a decoded JSON object (first binding wins; decoded
JSON never holds duplicate keys). -/
def jget (fields : List JField) (k : String) : Option Json :=
  match fields with
  | [] => none
  | f :: rest => if f.key = k then some f.val else jget rest k

/-- An HTTP response as observed by `verify`/`process`: the status code,
the decoded body text (`response.text`), and the outcome of parsing the
full body as JSON (`response.json()`); `none` models the parse raising. -/
structure Response where
  status : Nat
  text : String
  jsonBody : Option Json

/-- `requests.Response.ok`: true unless `raise_for_status` would raise,
i.e. unless the status code is a 4xx or 5xx error. -/
def Response.ok (r : Response) : Bool :=
  if 400 ≤ r.status ∧ r.status < 600 then false else true

/-- Exceptions that can escape the embedded request layer. -/
inductive PyError : Type where
  | apiRequestError : String → PyError
  | jsonDecodeError : PyError
  | typeError : PyError
  deriving DecidableEq

/-- Modelled from the spec: `messages.SERVER_ERROR`, the generic server
error default (the `messages` module is not among the sources). -/
def SERVER_ERROR : String := "A server error occurred. Please try again later."

/-- Modelled from the spec: `messages.AUTH_INVALID_TOKEN` (authorization
failure message; the `messages` module is not among the sources). -/
def AUTH_INVALID_TOKEN : String := "Invalid or expired authentication token."

/-- Modelled from the spec: `messages.BAD_REQUEST` (bad-request message;
the `messages` module is not among the sources). -/
def BAD_REQUEST : String := "The request could not be processed as submitted."

/-- Modelled from the spec: `messages.RESOURCE_NOT_FOUND_ANONYMOUS`, the
generic not-found message used when no login could be resolved (the
`messages` module is not among the sources). -/
def RESOURCE_NOT_FOUND_ANONYMOUS : String :=
  "You tried to access a resource that does not exist."

/-- Modelled from the spec: `messages.RESOURCE_NOT_FOUND.format(login=l)`,
the not-found message personalized to reference the resolved login (the
`messages` module is not among the sources). -/
def RESOURCE_NOT_FOUND (login : String) : String :=
  "You tried to access a resource that does not exist or that you cannot see as "
    ++ login ++ "."

/-- The class-level, shared state of `APIRequest`: the one
`response_code_error_map` dict object that every instance aliases (no
instance ever rebinds the attribute; they mutate this dict in place). -/
structure ClassState where
  response_code_error_map : Dict Nat String
  deriving DecidableEq

/-- `APIRequest.response_code_error_map` as initialised at class-definition
time (`requests.codes`: forbidden 403, unauthorized 401, not_found 404,
bad_request 400). -/
def initClassState : ClassState :=
  { response_code_error_map :=
      [(403, AUTH_INVALID_TOKEN), (401, AUTH_INVALID_TOKEN),
       (404, RESOURCE_NOT_FOUND_ANONYMOUS), (400, BAD_REQUEST)] }

/-- `APIRequest.get_error_code_map(login)`: when a login is resolved, the
404 entry of the (shared, class-level) map is overwritten in place with the
personalized message; the map is then returned. `login = none` models the
falsy `False` returned by `get_login` when no credentials match. -/
def get_error_code_map (login : Option String) (st : ClassState) :
    ClassState × Dict Nat String :=
  match login with
  | some l =>
      let m := dset st.response_code_error_map 404 (RESOURCE_NOT_FOUND l)
      ({ response_code_error_map := m }, m)
  | none => (st, st.response_code_error_map)

/-- Python iteration over a decoded JSON value, as used by
`for error in ...` and `"\n".join(...)`: lists yield their elements,
strings their characters (as one-character strings), dicts their keys;
`null`, booleans and numbers are not iterable (`none` models the raised
`TypeError`). -/
def jsonIterElems : Json → Option (List Json)
  | Json.arr xs => some xs
  | Json.str s => some (s.data.map (fun c => Json.str (String.mk [c])))
  | Json.obj fs => some (fs.map (fun f => Json.str f.key))
  | _ => none

/-- `str.join` requires every element to be a `str`; `none` models the
raised `TypeError` on any non-string element. -/
def allStrs : List Json → Option (List String)
  | [] => some []
  | Json.str s :: rest => (allStrs rest).map (fun l => s :: l)
  | _ => none

/-- The guarded extraction in `APIRequest.verify`:
`"\n".join([error for error in response.json()["non_field_errors"]])`.
`none` models any raised exception on the way (JSON decode failure,
missing key, non-dict body, non-iterable value, non-string element) —
caught by the surrounding `except Exception`. -/
def extractNonFieldErrors (j : Option Json) : Option String :=
  match j with
  | some (Json.obj fields) =>
      match jget fields "non_field_errors" with
      | some v =>
          match jsonIterElems v with
          | some elems =>
              match allStrs elems with
              | some strs => some (joinNl strs)
              | none => none
          | none => none
      | none => none
  | _ => none

/-- The message picked from the (possibly login-personalized) error table,
falling back to the request's default error message. -/
def classifiedMsg (login : Option String) (default_error_message : String)
    (r : Response) (st : ClassState) : String :=
  (dget (get_error_code_map login st).2 r.status).getD default_error_message

/-- `APIRequest.verify(response)`: on a non-ok response, build the
classified error message (appending either the prettified
`non_field_errors` or the — possibly truncated — raw body text, when the
inspected content is non-empty) and raise `APIRequestError`; on an ok
response, delegate to the active strategy's `process`. The session's
debug flag, the resolved login (`get_login`) and `process` are passed
explicitly; the shared class-level state is threaded through. -/
def verify {α : Type} (debug : Bool) (login : Option String)
    (default_error_message : String) (process : Response → α)
    (r : Response) (st : ClassState) : ClassState × Except PyError α :=
  if r.ok then (st, Except.ok (process r))
  else
    let step := get_error_code_map login st
    let error_msg := (dget step.2 r.status).getD default_error_message
    let response_content := if debug then r.text else strTake r.text 300
    if response_content = "" then
      (step.1, Except.error (PyError.apiRequestError error_msg))
    else
      match extractNonFieldErrors r.jsonBody with
      | some non_field_errors =>
          (step.1, Except.error (PyError.apiRequestError
            (error_msg ++ "\n\n" ++ non_field_errors)))
      | none =>
          (step.1, Except.error (PyError.apiRequestError
            (error_msg ++ "\n\n" ++ response_content)))

/-- Python `str()` of a decoded JSON value, as used by `"...".format(e)`.
Exact on strings and scalars; containers get a simplified rendering (no
claim in scope formats a container value). -/
def pyStr : Json → String
  | Json.null => "None"
  | Json.bool true => "True"
  | Json.bool false => "False"
  | Json.num n => toString n
  | Json.str s => s
  | Json.arr _ => "[...]"
  | Json.obj _ => "\x7b...\x7d"

/-- The fixed header of the `DjangoFormMixin` error report. -/
def djangoHeader : String :=
  "There was an error submitting your request:\n"
    ++ "-------------------------------------------\n\n"

/-- The field loop of `DjangoFormMixin.verify`: one section per field in
insertion order, one bullet line per error, one blank line closing each
section. `none` models the `TypeError` raised when an error value is not
iterable. -/
def djangoFields : List JField → Option String
  | [] => some ""
  | f :: rest =>
      match jsonIterElems f.val with
      | some elems =>
          match djangoFields rest with
          | some restS =>
              some (" - " ++ f.key ++ "\n"
                ++ String.join (elems.map (fun e => "   - " ++ pyStr e ++ "\n"))
                ++ "\n" ++ restS)
          | none => none
      | none => none

/-- The bad-request branch of `DjangoFormMixin.verify`: iterate
`response.json().items()`, render the report, and strip the newlines at
both ends (`formatted.strip("\n")`). `none` models a raised exception: a
non-object body (no `.items()`) or a non-iterable error value. -/
def djangoFormat : Json → Option String
  | Json.obj fields =>
      match djangoFields fields with
      | some s => some (pyStrip (Char.ofNat 10) (djangoHeader ++ s))
      | none => none
  | _ => none

/-- `DjangoFormMixin.verify(response)`: an ok response yields the fixed
success message; a 400 response renders the field-error report from the
JSON body, where a decode failure (`response.json()` raising) or a shape
failure propagates uncaught; any other response falls through to
`APIRequest.verify`. -/
def djangoVerify (success_message : String) (debug : Bool)
    (login : Option String) (default_error_message : String)
    (process : Response → String) (r : Response) (st : ClassState) :
    ClassState × Except PyError String :=
  if r.ok then (st, Except.ok success_message)
  else if r.status = 400 then
    match r.jsonBody with
    | none => (st, Except.error PyError.jsonDecodeError)
    | some j =>
        match djangoFormat j with
        | some s => (st, Except.ok s)
        | none => (st, Except.error PyError.typeError)
  else verify debug login default_error_message process r st

/-- Whether `pat` occurs as a contiguous substring of `s`. -/
def listContains (s pat : List Char) : Bool :=
  if pat.isPrefixOf s then true
  else
    match s with
    | [] => false
    | _ :: rest => listContains rest pat

/-- Model of `urllib.parse.urljoin(base, url)` for the shapes this client
uses: a base of the form scheme://host with no path (as
`SingleHostSession.__init__` normalizes it) and a url that is either
already absolute (carries a scheme separator, returned unchanged) or a
path resolved against the base. -/
def urljoinModel (base url : String) : String :=
  if listContains url.data ("://".data) then url
  else if url.data.head? = some (Char.ofNat 47) then base ++ url
  else base ++ "/" ++ url

/-- The outgoing call handed on to `requests.Session.request`: the final
URL and the form-encoded (`data=`) and JSON (`json=`) body arguments. -/
structure Outgoing where
  url : String
  formData : Option (Dict String String)
  jsonData : Option (Dict String String)
  deriving DecidableEq

/-- `SingleHostSession.request(method, url, v3_compatibilty, ...)`:
resolve the url against the host; in versioned-compatibility mode,
rewrite the first occurrence of "control" in the resolved URL to "api"
and move the form body (`kwargs.pop("data", {})`) into the JSON body. -/
def sessionRequest (host url : String) (v3_compatibilty : Bool)
    (formData jsonData : Option (Dict String String)) : Outgoing :=
  let u := urljoinModel host url
  if v3_compatibilty then
    { url := pyReplaceFirst u "control" "api"
      formData := none
      jsonData := some (formData.getD []) }
  else
    { url := u, formData := formData, jsonData := jsonData }

/-- The proxy map installed by `SingleHostSession.__init__`: build the
default map from `HTTP_PROXY` then `HTTPS_PROXY`; when it is non-empty,
override it key-by-key with the caller-supplied proxies and install the
result; when it is empty, the caller-supplied map (or the
`requests.Session` default, an empty dict) stands. -/
def sessionProxies (envHttp envHttps : Option String)
    (explicit : Option (Dict String String)) : Dict String String :=
  let dp0 : Dict String String := []
  let dp1 := match envHttp with
    | some v => dset dp0 "http" v
    | none => dp0
  let dp2 := match envHttps with
    | some v => dset dp1 "https" v
    | none => dp1
  if dp2 = [] then explicit.getD []
  else dupdate dp2 (explicit.getD [])

/-- Python `a or b` for the optional string attributes of `FileResponse`
(an absent or empty value is falsy). -/
def pyOrStr (a : Option String) (b : String) : String :=
  match a with
  | some s => if s = "" then b else s
  | none => b

/-- Model of `os.path.join(a, b)` for a single join: an absolute second
component wins; otherwise a separator is inserted unless present. -/
def pyPathJoin (a b : String) : String :=
  if b.data.head? = some (Char.ofNat 47) then b
  else if a = "" then b
  else if a.data.getLast? = some (Char.ofNat 47) then a ++ b
  else a ++ "/" ++ b

/-- The observable effect of the chunk-writing loop of
`FileResponse.process`: the bytes written to the file and the number of
`flush` calls. -/
structure FileState where
  content : List Nat
  flushes : Nat
  deriving DecidableEq

/-- The loop of `FileResponse.process` over
`response.iter_content(chunk_size=1024)`: write and flush every chunk,
skipping falsy (zero-length keep-alive) ones. -/
def writeChunks (chunks : List (List Nat)) : FileState :=
  chunks.foldl
    (fun st c =>
      if c.isEmpty then st
      else { content := st.content ++ c, flushes := st.flushes + 1 })
    { content := [], flushes := 0 }

/-- `FileResponse.process(response)`: the dump path is joined from the
explicit directory (or the fresh temporary directory returned by
`create_temp_dir()`, passed in explicitly) and the explicit filename (or
the default name); the body chunks — the sequence yielded by
`response.iter_content(chunk_size=1024)`, each of at most 1024 bytes —
are written to it, and the path is returned. -/
def fileResponseProcess (directory filename : Option String)
    (tempDir : String) (chunks : List (List Nat)) : String × FileState :=
  (pyPathJoin (pyOrStr directory tempDir) (pyOrStr filename "data.tar.gz"),
   writeChunks chunks)

/-- The keyword arguments `FileResponse.request` forwards to dispatch. -/
structure DispatchKwargs where
  stream : Bool
  deriving DecidableEq

/-- `FileResponse.request(...)`: `kwargs["stream"] = True` before
delegating. -/
def fileResponseRequestKwargs (k : DispatchKwargs) : DispatchKwargs :=
  { k with stream := true }

/-- A heap of Python dict objects; an address is an index into the heap.
This makes allocation and in-place mutation explicit for `get_headers`. -/
abbrev HeaderHeap : Type := List (Dict String String)

/-- The addresses of the two class-level header dicts:
`APIRequest.default_headers` and the per-definition `headers`. -/
structure HeaderClassAttrs where
  defaultAddr : Nat
  headersAddr : Nat

/-- `APIRequest.get_headers()`: `self.default_headers.copy()` allocates a
fresh dict, which is then updated with the per-definition `headers` and
returned (as the fresh address). -/
def get_headers (cs : HeaderClassAttrs) (heap : HeaderHeap) :
    HeaderHeap × Nat :=
  let dh := heap.getD cs.defaultAddr []
  let per := heap.getD cs.headersAddr []
  (heap ++ [dupdate dh per], heap.length)

/-- What a caller may do afterwards: call `get_headers` again, or mutate
in place the i-th mapping that `get_headers` returned. -/
inductive HeaderOp : Type where
  | call : HeaderOp
  | mutate : Nat → Dict String String → HeaderOp

/-- The heap together with the addresses `get_headers` has returned so
far. -/
structure HeaderTrace where
  heap : HeaderHeap
  returned : List Nat

/-- One caller step against `get_headers` and its returned mappings. -/
def stepHeaderOp (cs : HeaderClassAttrs) (s : HeaderTrace) :
    HeaderOp → HeaderTrace
  | HeaderOp.call =>
      let res := get_headers cs s.heap
      { heap := res.1, returned := s.returned ++ [res.2] }
  | HeaderOp.mutate i d =>
      match s.returned[i]? with
      | some a => { heap := s.heap.set a d, returned := s.returned }
      | none => s

/-- Any number of calls to `get_headers` interleaved with caller
mutations of the returned mappings. -/
def runHeaderOps (cs : HeaderClassAttrs) (s : HeaderTrace)
    (ops : List HeaderOp) : HeaderTrace :=
  ops.foldl (stepHeaderOp cs) s

instance {ε α : Type} [DecidableEq ε] [DecidableEq α] :
    DecidableEq (Except ε α) := fun x y =>
  match x, y with
  | Except.ok a, Except.ok b => decidable_of_iff (a = b) (by simp)
  | Except.error a, Except.error b => decidable_of_iff (a = b) (by simp)
  | Except.ok _, Except.error _ => Decidable.isFalse (by simp)
  | Except.error _, Except.ok _ => Decidable.isFalse (by simp)

/-- A 304 Not Modified response: not a 2xx success, yet `response.ok`. -/
def r304 : Response := { status := 304, text := "", jsonBody := none }

/-- A 200 response (body irrelevant). -/
def r200 : Response := { status := 200, text := "body", jsonBody := none }

/-- A 404 response with a short non-JSON body. -/
def r404 : Response := { status := 404, text := "nope", jsonBody := none }

/-- A 400 response whose non-empty body is not valid JSON. -/
def rBadJson : Response :=
  { status := 400, text := "<html>oops</html>", jsonBody := none }

/-- A 500 response with a 350-character non-JSON body. -/
def rLongBody : Response :=
  { status := 500
    text := String.mk (List.replicate 350 (Char.ofNat 97))
    jsonBody := none }

/-- A single cross-field error line of 320 characters. -/
def longErrorLine : String := String.mk (List.replicate 320 (Char.ofNat 101))

/-- A 403 response whose JSON body carries `non_field_errors`, one entry
longer than 300 characters, inside a body text longer than 300
characters. -/
def rNfe : Response :=
  { status := 403
    text := String.mk (List.replicate 340 (Char.ofNat 120))
    jsonBody := some (Json.obj [JField.mk "non_field_errors"
      (Json.arr [Json.str longErrorLine, Json.str "b"])]) }

/-- The spec's form-validation example: a 400 response whose JSON body
maps "name" to one error and "email" to two, in that insertion order. -/
def exampleFormResponse : Response :=
  { status := 400
    text := "raw"
    jsonBody := some (Json.obj
      [JField.mk "name" (Json.arr [Json.str "required"]),
       JField.mk "email" (Json.arr [Json.str "invalid", Json.str "too long"])]) }

/-- The report `DjangoFormMixin.verify` renders for
`exampleFormResponse`. -/
def expectedDjangoReport : String :=
  "There was an error submitting your request:\n"
    ++ "-------------------------------------------\n\n"
    ++ " - name\n   - required\n\n"
    ++ " - email\n   - invalid\n   - too long"

/-- Three content chunks of sizes 1024, 1024 and 10 with one zero-length
keep-alive chunk interleaved, as in the spec's download example. -/
def exampleChunks : List (List Nat) :=
  [List.replicate 1024 1, List.replicate 1024 2, [], List.replicate 10 3]

theorem isPrefixOf_append_self (old b : List Char) :
    old.isPrefixOf (old ++ b) = true := by
  induction old with
  | nil => simp [List.isPrefixOf]
  | cons c cs ih => simp [List.isPrefixOf, ih]

theorem listReplaceFirst_of_isPrefixOf (s old new : List Char)
    (h : old.isPrefixOf s = true) :
    listReplaceFirst s old new = new ++ List.drop old.length s := by
  cases s with
  | nil => simp [listReplaceFirst, h]
  | cons c rest => simp [listReplaceFirst, h]

theorem listReplaceFirst_cons_of_not (c : Char) (rest old new : List Char)
    (h : old.isPrefixOf (c :: rest) = false) :
    listReplaceFirst (c :: rest) old new = c :: listReplaceFirst rest old new := by
  simp [listReplaceFirst, h]

/-- `str.replace(old, new, 1)` rewrites exactly the first occurrence:
when the string splits as `a ++ old ++ b` and no occurrence of `old`
starts inside `a`, the result is `a ++ new ++ b` — any later occurrences
(inside `b`) are untouched. -/
theorem listReplaceFirst_of_first (old new b a : List Char)
    (hfirst : ∀ i, i < a.length →
      old.isPrefixOf ((a ++ (old ++ b)).drop i) = false) :
    listReplaceFirst (a ++ (old ++ b)) old new = a ++ (new ++ b) := by
  induction a with
  | nil =>
      rw [List.nil_append, List.nil_append,
        listReplaceFirst_of_isPrefixOf _ _ _ (isPrefixOf_append_self old b),
        List.drop_left]
  | cons c a' ih =>
      have h0 := hfirst 0 (by simp)
      rw [List.drop_zero] at h0
      rw [List.cons_append] at h0 ⊢
      rw [listReplaceFirst_cons_of_not _ _ _ _ h0, List.cons_append]
      refine congrArg (c :: ·) (ih fun i hi => ?_)
      have := hfirst (i + 1) (by simpa using Nat.succ_lt_succ hi)
      rwa [List.cons_append, List.drop_succ_cons] at this

theorem strTake_ne_empty (s : String) (n : Nat) (hn : 0 < n) (hs : s ≠ "") :
    strTake s n ≠ "" := by
  cases s with
  | mk data =>
      cases data with
      | nil => exact absurd rfl hs
      | cons c rest =>
          cases n with
          | zero => omega
          | succ m =>
              intro h
              simp only [strTake, List.take] at h
              have hdata := congrArg String.data h
              simp at hdata

theorem writeChunks_foldl (chunks : List (List Nat)) (st : FileState) :
    (chunks.foldl
      (fun st c =>
        if c.isEmpty then st
        else { content := st.content ++ c, flushes := st.flushes + 1 })
      st).content = st.content ++ chunks.flatten ∧
    (chunks.foldl
      (fun st c =>
        if c.isEmpty then st
        else { content := st.content ++ c, flushes := st.flushes + 1 })
      st).flushes = st.flushes + (chunks.filter (fun c => !c.isEmpty)).length := by
  induction chunks generalizing st with
  | nil => simp
  | cons c rest ih =>
      rw [List.foldl_cons]
      by_cases hc : c.isEmpty
      · have hcnil : c = [] := by simpa using hc
        subst hcnil
        simpa using ih st
      · simp only [if_neg hc]
        obtain ⟨h1, h2⟩ := ih { content := st.content ++ c, flushes := st.flushes + 1 }
        constructor
        · rw [h1]
          simp [List.append_assoc]
        · rw [h2]
          simp only [List.filter_cons]
          have hb : (!c.isEmpty) = true := by simpa using hc
          rw [if_pos hb, List.length_cons]
          omega

theorem writeChunks_spec (chunks : List (List Nat)) :
    (writeChunks chunks).content = chunks.flatten ∧
    (writeChunks chunks).flushes
      = (chunks.filter (fun c => !c.isEmpty)).length := by
  have h := writeChunks_foldl chunks { content := [], flushes := 0 }
  simpa [writeChunks] using h

theorem flatten_filter_nonempty (chunks : List (List Nat)) :
    (chunks.filter (fun c => !c.isEmpty)).flatten = chunks.flatten := by
  induction chunks with
  | nil => rfl
  | cons c rest ih =>
      by_cases hc : c.isEmpty
      · have hcnil : c = [] := by simpa using hc
        subst hcnil
        simpa using ih
      · simp [List.filter_cons, hc, ih]

theorem runHeaderOps_cons (cs : HeaderClassAttrs) (s : HeaderTrace)
    (op : HeaderOp) (rest : List HeaderOp) :
    runHeaderOps cs s (op :: rest) = runHeaderOps cs (stepHeaderOp cs s op) rest := rfl

theorem stepHeaderOp_preserves (cs : HeaderClassAttrs) (n : Nat)
    (s : HeaderTrace) (op : HeaderOp)
    (hlen : n ≤ s.heap.length) (hret : ∀ a ∈ s.returned, n ≤ a) :
    n ≤ (stepHeaderOp cs s op).heap.length ∧
    (∀ a ∈ (stepHeaderOp cs s op).returned, n ≤ a) ∧
    (∀ j, j < n → (stepHeaderOp cs s op).heap[j]? = s.heap[j]?) := by
  cases op with
  | call =>
      refine ⟨?_, ?_, ?_⟩
      · simp only [stepHeaderOp, get_headers, List.length_append]
        omega
      · intro a ha
        simp only [stepHeaderOp, get_headers, List.mem_append,
          List.mem_singleton] at ha
        rcases ha with ha | ha
        · exact hret a ha
        · omega
      · intro j hj
        simp only [stepHeaderOp, get_headers]
        exact List.getElem?_append_left (by omega)
  | mutate i d =>
      cases hg : s.returned[i]? with
      | none =>
          have hstep : stepHeaderOp cs s (HeaderOp.mutate i d) = s := by
            simp only [stepHeaderOp, hg]
          rw [hstep]
          exact ⟨hlen, hret, fun j hj => rfl⟩
      | some a =>
          have hmem : a ∈ s.returned := by
            obtain ⟨hlt, he⟩ := List.getElem?_eq_some.mp hg
            exact he ▸ List.getElem_mem hlt
          have hna : n ≤ a := hret a hmem
          refine ⟨?_, ?_, ?_⟩
          · simp only [stepHeaderOp, hg, List.length_set]
            exact hlen
          · intro b hb
            simp only [stepHeaderOp, hg] at hb
            exact hret b hb
          · intro j hj
            simp only [stepHeaderOp, hg]
            exact List.getElem?_set_ne (by omega)

theorem runHeaderOps_preserves (cs : HeaderClassAttrs) (n : Nat)
    (ops : List HeaderOp) (s : HeaderTrace)
    (hlen : n ≤ s.heap.length) (hret : ∀ a ∈ s.returned, n ≤ a) :
    n ≤ (runHeaderOps cs s ops).heap.length ∧
    (∀ a ∈ (runHeaderOps cs s ops).returned, n ≤ a) ∧
    (∀ j, j < n → (runHeaderOps cs s ops).heap[j]? = s.heap[j]?) := by
  induction ops generalizing s with
  | nil => exact ⟨hlen, hret, fun j hj => rfl⟩
  | cons op rest ih =>
      obtain ⟨h1, h2, h3⟩ := stepHeaderOp_preserves cs n s op hlen hret
      obtain ⟨g1, g2, g3⟩ := ih (stepHeaderOp cs s op) h1 h2
      rw [runHeaderOps_cons]
      exact ⟨g1, g2, fun j hj => (g3 j hj).trans (h3 j hj)⟩

/-- C1 (counterexample): the claim says `process` is called exactly when
the response is a 2xx success; but `response.ok` is "not a 4xx/5xx", so
for a 304 response — not a 2xx — `verify` still delegates to the active
strategy's `process` and returns whatever `process` returns. -/
theorem C1_counterexample :
    (¬(200 ≤ r304.status ∧ r304.status < 300)) ∧
    (verify false none SERVER_ERROR (fun _ => (1 : Nat)) r304 initClassState).2
      = Except.ok 1 ∧
    (verify false none SERVER_ERROR (fun _ => (2 : Nat)) r304 initClassState).2
      = Except.ok 2 :=
  ⟨by decide, rfl, rfl⟩

/-- C1 (amended): `verify` delegates to the active Response Strategy's
`process` exactly when `response.ok` holds — the status is not a 4xx/5xx
error, which includes every 2xx success — and for any 4xx/5xx response it
never calls `process` (the outcome is independent of the `process`
function) and raises the classified user-facing error. -/
theorem C1_verify_delegates_iff_ok {α : Type} (debug : Bool)
    (login : Option String) (dmsg : String) (p q : Response → α)
    (r : Response) (st : ClassState) :
    (r.ok = true → (verify debug login dmsg p r st).2 = Except.ok (p r)) ∧
    (r.ok = false →
      (∃ m, (verify debug login dmsg p r st).2
          = Except.error (PyError.apiRequestError m)) ∧
      (verify debug login dmsg p r st).2
        = (verify debug login dmsg q r st).2) := by
  constructor
  · intro h
    simp [verify, h]
  · intro h
    constructor
    · simp only [verify, h, Bool.false_eq_true, if_false]
      by_cases hrc : (if debug then r.text else strTake r.text 300) = ""
      · simp only [if_pos hrc]
        exact ⟨_, rfl⟩
      · simp only [if_neg hrc]
        cases hx : extractNonFieldErrors r.jsonBody with
        | none => exact ⟨_, rfl⟩
        | some v => exact ⟨_, rfl⟩
    · simp only [verify, h, Bool.false_eq_true, if_false]

/-- C1 (witness): at a 304 response `verify` returns the `process`
result; at a 404 response the outcome ignores `process` entirely. -/
theorem C1_witness :
    (verify false none SERVER_ERROR (fun _ => (1 : Nat)) r304 initClassState).2
      = Except.ok 1 ∧
    (verify false none SERVER_ERROR (fun _ => (3 : Nat)) r404 initClassState).2
      = (verify false none SERVER_ERROR (fun _ => (4 : Nat)) r404 initClassState).2 :=
  ⟨(C1_verify_delegates_iff_ok false none SERVER_ERROR (fun _ => (1 : Nat))
      (fun _ => (1 : Nat)) r304 initClassState).1 (by decide),
   ((C1_verify_delegates_iff_ok false none SERVER_ERROR (fun _ => (3 : Nat))
      (fun _ => (4 : Nat)) r404 initClassState).2 (by decide)).2⟩

/-- C2: dispatching in versioned-compatibility mode rewrites only the
first occurrence of the substring "control" in the resolved URL —
splitting that URL as `a ++ "control" ++ b` where no occurrence of
"control" starts inside `a`, the dispatched URL is `a ++ "api" ++ b`,
with later occurrences (inside `b`) untouched — and moves the form-body
data into the JSON-encoded body. -/
theorem C2_v3_rewrite (host url : String) (d j : Option (Dict String String))
    (a b : List Char)
    (hsplit : (urljoinModel host url).data = a ++ ("control".data ++ b))
    (hfirst : ∀ i, i < a.length →
      "control".data.isPrefixOf (((urljoinModel host url).data).drop i) = false) :
    (sessionRequest host url true d j).url = String.mk (a ++ ("api".data ++ b)) ∧
    (sessionRequest host url true d j).formData = none ∧
    (sessionRequest host url true d j).jsonData = some (d.getD []) := by
  refine ⟨?_, rfl, rfl⟩
  show pyReplaceFirst (urljoinModel host url) "control" "api" = _
  rw [pyReplaceFirst]
  rw [hsplit] at hfirst ⊢
  rw [listReplaceFirst_of_first _ _ _ _ hfirst]

/-- C2 (witness): the spec's example — the first "control" (in the host)
is rewritten to "api", the later "control-panel" path segment is left
alone, and the form body moves into the JSON body. -/
theorem C2_witness :
    (sessionRequest "https://control.example.com" "/apps/v3/control-panel/" true
        (some [("key", "value")]) none).url
      = "https://api.example.com/apps/v3/control-panel/" ∧
    (sessionRequest "https://control.example.com" "/apps/v3/control-panel/" true
        (some [("key", "value")]) none).formData = none ∧
    (sessionRequest "https://control.example.com" "/apps/v3/control-panel/" true
        (some [("key", "value")]) none).jsonData = some [("key", "value")] := by
  have h := C2_v3_rewrite "https://control.example.com" "/apps/v3/control-panel/"
    (some [("key", "value")]) none "https://".data
    ".example.com/apps/v3/control-panel/".data (by decide) (by decide)
  refine ⟨?_, h.2.1, h.2.2⟩
  rw [h.1]
  decide

/-- C3 (code bug): `get_error_code_map` mutates the class-level
`response_code_error_map` in place. Personalizing the 404 entry for one
request instance (login "alice") changes the table that a second,
unrelated instance — whose login resolution yields nothing — then
observes: it sees the "alice" message instead of the generic not-found
message that the pristine table holds (and that it would see before the
first instance ran). -/
theorem C3_error_map_leaks_across_instances :
    dget (get_error_code_map none initClassState).2 404
      = some RESOURCE_NOT_FOUND_ANONYMOUS ∧
    dget (get_error_code_map (some "alice") initClassState).2 404
      = some (RESOURCE_NOT_FOUND "alice") ∧
    listContains (RESOURCE_NOT_FOUND "alice").data "alice".data = true ∧
    dget (get_error_code_map none
        (get_error_code_map (some "alice") initClassState).1).2 404
      = some (RESOURCE_NOT_FOUND "alice") ∧
    RESOURCE_NOT_FOUND "alice" ≠ RESOURCE_NOT_FOUND_ANONYMOUS := by
  decide

/-- C4: for a non-ok response whose body does not yield structured error
details, the body text appended after the classified message is the full
`response.text` when the session's debug flag is set, and exactly its
first 300 characters when it is not. -/
theorem C4_error_body_truncation {α : Type} (login : Option String)
    (dmsg : String) (p : Response → α) (r : Response) (st : ClassState)
    (hok : r.ok = false) (hjson : extractNonFieldErrors r.jsonBody = none)
    (hne : r.text ≠ "") :
    (verify true login dmsg p r st).2 = Except.error (PyError.apiRequestError
        (classifiedMsg login dmsg r st ++ "\n\n" ++ r.text)) ∧
    (verify false login dmsg p r st).2 = Except.error (PyError.apiRequestError
        (classifiedMsg login dmsg r st ++ "\n\n" ++ strTake r.text 300)) := by
  have h300 : strTake r.text 300 ≠ "" := strTake_ne_empty r.text 300 (by omega) hne
  constructor
  · simp [verify, hok, hjson, hne, classifiedMsg]
  · simp [verify, hok, hjson, h300, classifiedMsg]

/-- C4 (witness): a 500 response with a 350-character non-JSON body: in
debug mode all 350 characters are appended, otherwise exactly the first
300. -/
theorem C4_witness :
    (verify true none SERVER_ERROR (fun _ => (0 : Nat)) rLongBody initClassState).2
      = Except.error (PyError.apiRequestError
          (SERVER_ERROR ++ "\n\n" ++ String.mk (List.replicate 350 (Char.ofNat 97)))) ∧
    (verify false none SERVER_ERROR (fun _ => (0 : Nat)) rLongBody initClassState).2
      = Except.error (PyError.apiRequestError
          (SERVER_ERROR ++ "\n\n" ++ String.mk (List.replicate 300 (Char.ofNat 97)))) := by
  have h := C4_error_body_truncation none SERVER_ERROR (fun _ => (0 : Nat))
    rLongBody initClassState (by decide) rfl (by decide)
  constructor
  · rw [h.1]
    decide
  · rw [h.2]
    decide

/-- C5 (counterexample): for a 400 response whose non-empty body is not
valid JSON, the Form-Validation-Aware `verify` (cited by the claim) lets
the JSON decode failure escape instead of the classified user-facing
error. -/
theorem C5_counterexample :
    rBadJson.text ≠ "" ∧ rBadJson.ok = false ∧
    (djangoVerify "Request successful" false none SERVER_ERROR (fun _ => "")
        rBadJson initClassState).2 = Except.error PyError.jsonDecodeError := by
  decide

/-- C5 (amended): in the default `verify` the guarded extraction of
`non_field_errors` never raises — every non-ok response yields the
classified `APIRequestError`, with the raw (possibly truncated) body text
appended whenever extraction fails and the inspected content is
non-empty; the Form-Validation-Aware `verify` inherits this for every
status other than bad-request, where its own unguarded JSON decode may
instead propagate a decode failure. -/
theorem C5_classified_error_only (debug : Bool) (login : Option String)
    (smsg dmsg : String) (p : Response → String) (r : Response)
    (st : ClassState) (hok : r.ok = false) :
    (∃ m, (verify debug login dmsg p r st).2
        = Except.error (PyError.apiRequestError m)) ∧
    (extractNonFieldErrors r.jsonBody = none →
      (if debug then r.text else strTake r.text 300) ≠ "" →
      (verify debug login dmsg p r st).2 = Except.error (PyError.apiRequestError
        (classifiedMsg login dmsg r st ++ "\n\n"
          ++ (if debug then r.text else strTake r.text 300)))) ∧
    (r.status ≠ 400 →
      djangoVerify smsg debug login dmsg p r st
        = verify debug login dmsg p r st) := by
  refine ⟨?_, ?_, ?_⟩
  · simp only [verify, hok, Bool.false_eq_true, if_false]
    by_cases hrc : (if debug then r.text else strTake r.text 300) = ""
    · simp only [if_pos hrc]
      exact ⟨_, rfl⟩
    · simp only [if_neg hrc]
      cases hx : extractNonFieldErrors r.jsonBody with
      | none => exact ⟨_, rfl⟩
      | some v => exact ⟨_, rfl⟩
  · intro hjson hne
    simp [verify, hok, hjson, hne, classifiedMsg]
  · intro hstat
    simp [djangoVerify, hok, hstat]

/-- C5 (witness): at a 404 response with a non-JSON body, the default
`verify` raises the classified error with the raw text appended, and the
Form-Validation-Aware `verify` behaves identically. -/
theorem C5_witness :
    (∃ m, (verify false none SERVER_ERROR (fun _ => "") r404 initClassState).2
        = Except.error (PyError.apiRequestError m)) ∧
    djangoVerify "Request successful" false none SERVER_ERROR (fun _ => "")
        r404 initClassState
      = verify false none SERVER_ERROR (fun _ => "") r404 initClassState := by
  have h := C5_classified_error_only false none "Request successful" SERVER_ERROR
    (fun _ => "") r404 initClassState (by decide)
  exact ⟨h.1, h.2.2 (by decide)⟩

/-- C6 (counterexample): a 304 response is neither a 2xx success nor a
bad request, yet the Form-Validation-Aware `verify` — gating on
`response.ok`, true for 304 — returns the fixed success message instead
of being handled by the default `verify`, which at the same response
would have delegated to the strategy's `process`. -/
theorem C6_counterexample :
    (¬(200 ≤ r304.status ∧ r304.status < 300)) ∧ r304.status ≠ 400 ∧
    (djangoVerify "Request successful" false none SERVER_ERROR
        (fun _ => "payload") r304 initClassState).2
      = Except.ok "Request successful" ∧
    (verify false none SERVER_ERROR (fun _ => "payload") r304 initClassState).2
      = Except.ok "payload" ∧
    ("Request successful" : String) ≠ "payload" := by
  decide

/-- C6 (amended): the Form-Validation-Aware strategy: every response with
`response.ok` — every non-4xx/5xx status, which includes all 2xx
successes but also e.g. 304 — yields the fixed success message; the
spec's 400 example with fields "name" (one error) and "email" (two
errors) renders one section per field in insertion order, one bullet per
error, a blank line between sections and no leading or trailing blank
lines (the rendered report starts and ends with a non-newline
character); any other 4xx/5xx status is handled by the default
`verify`. -/
theorem C6_django_form_strategy (smsg : String) (debug : Bool)
    (login : Option String) (dmsg : String) (p : Response → String)
    (st : ClassState) :
    (∀ r : Response, r.ok = true →
      djangoVerify smsg debug login dmsg p r st = (st, Except.ok smsg)) ∧
    (∀ r : Response, 200 ≤ r.status → r.status < 300 → r.ok = true) ∧
    djangoVerify smsg debug login dmsg p exampleFormResponse st
      = (st, Except.ok expectedDjangoReport) ∧
    expectedDjangoReport.data.head? ≠ some (Char.ofNat 10) ∧
    expectedDjangoReport.data.getLast? ≠ some (Char.ofNat 10) ∧
    (∀ r : Response, r.ok = false → r.status ≠ 400 →
      djangoVerify smsg debug login dmsg p r st
        = verify debug login dmsg p r st) := by
  refine ⟨?_, ?_, ?_, by decide, by decide, ?_⟩
  · intro r hok
    simp [djangoVerify, hok]
  · intro r h1 h2
    simp only [Response.ok]
    rw [if_neg (by omega)]
  · rfl
  · intro r h1 h2
    simp [djangoVerify, h1, h2]

/-- C6 (witness): a concrete 200 response is ok and yields the success
message, and a concrete 404 response is handled exactly as by the
default `verify`. -/
theorem C6_witness :
    djangoVerify "Addon successfully registered" false none SERVER_ERROR
        (fun _ => "") r200 initClassState
      = (initClassState, Except.ok "Addon successfully registered") ∧
    r200.ok = true ∧
    djangoVerify "Addon successfully registered" false none SERVER_ERROR
        (fun _ => "") r404 initClassState
      = verify false none SERVER_ERROR (fun _ => "") r404 initClassState := by
  have h := C6_django_form_strategy "Addon successfully registered" false none
    SERVER_ERROR (fun _ => "") initClassState
  exact ⟨h.1 r200 (by decide), h.2.1 r200 (by decide) (by decide),
    h.2.2.2.2.2 r404 (by decide) (by decide)⟩

/-- C7: the File-Download strategy always requests a streamed body; the
file content written by `process` is the in-order concatenation of the
non-empty chunks, with exactly one flush per written (non-empty) chunk
and zero-length keep-alive chunks skipped; the returned path joins the
explicit directory (or the fresh temporary directory) with the explicit
filename (or the default name); and on the spec's example — chunks of
sizes 1024, 1024 and 10 with one empty chunk interleaved — the file
holds exactly the 2058 bytes of the three chunks in order. -/
theorem C7_file_download (directory filename : Option String)
    (tempDir : String) (chunks : List (List Nat)) (k : DispatchKwargs) :
    (fileResponseRequestKwargs k).stream = true ∧
    (fileResponseProcess directory filename tempDir chunks).1
      = pyPathJoin (pyOrStr directory tempDir) (pyOrStr filename "data.tar.gz") ∧
    (fileResponseProcess directory filename tempDir chunks).2.content
      = (chunks.filter (fun c => !c.isEmpty)).flatten ∧
    (fileResponseProcess directory filename tempDir chunks).2.flushes
      = (chunks.filter (fun c => !c.isEmpty)).length ∧
    (fileResponseProcess none none "/tmp/dl" exampleChunks).2.content
      = List.replicate 1024 1 ++ (List.replicate 1024 2 ++ List.replicate 10 3) ∧
    (fileResponseProcess none none "/tmp/dl" exampleChunks).2.content.length
      = 2058 ∧
    (fileResponseProcess none none "/tmp/dl" exampleChunks).1
      = "/tmp/dl/data.tar.gz" := by
  obtain ⟨hc, hf⟩ := writeChunks_spec chunks
  obtain ⟨hce, _⟩ := writeChunks_spec exampleChunks
  refine ⟨rfl, rfl, ?_, hf, ?_, ?_, ?_⟩
  · show (writeChunks chunks).content = _
    rw [hc, flatten_filter_nonempty]
  · show (writeChunks exampleChunks).content = _
    rw [hce]
    simp [exampleChunks]
  · show (writeChunks exampleChunks).content.length = 2058
    rw [hce]
    simp [exampleChunks]
  · rfl

/-- C8: with no explicit proxy map, the session's proxies are exactly the
environment-derived entries (`HTTP_PROXY`/`HTTPS_PROXY`, either may be
absent); with an explicit entry for "https" only, that key is overridden
while "http" still equals the environment value. -/
theorem C8_proxy_resolution (eh es : Option String) (x : String) :
    dget (sessionProxies eh es none) "http" = eh ∧
    dget (sessionProxies eh es none) "https" = es ∧
    dget (sessionProxies eh es (some [("https", x)])) "http" = eh ∧
    dget (sessionProxies eh es (some [("https", x)])) "https" = some x := by
  cases eh <;> cases es <;>
    simp [sessionProxies, dget, dset, dupdate]

/-- C9: `get_headers` returns a freshly allocated mapping — a new address,
distinct from both class-level table addresses, holding the default
headers overridden key-by-key by the per-definition headers — and after
any number of calls interleaved with arbitrary caller mutations of the
returned mappings, both class-level header tables are unchanged. -/
theorem C9_get_headers_fresh_and_pure (cs : HeaderClassAttrs)
    (heap₀ : HeaderHeap) (ops : List HeaderOp)
    (hd : cs.defaultAddr < heap₀.length) (hh : cs.headersAddr < heap₀.length) :
    (get_headers cs heap₀).1[(get_headers cs heap₀).2]?
      = some (dupdate (heap₀.getD cs.defaultAddr [])
          (heap₀.getD cs.headersAddr [])) ∧
    (get_headers cs heap₀).2 ≠ cs.defaultAddr ∧
    (get_headers cs heap₀).2 ≠ cs.headersAddr ∧
    (runHeaderOps cs ⟨heap₀, []⟩ ops).heap[cs.defaultAddr]?
      = heap₀[cs.defaultAddr]? ∧
    (runHeaderOps cs ⟨heap₀, []⟩ ops).heap[cs.headersAddr]?
      = heap₀[cs.headersAddr]? := by
  have hrun := runHeaderOps_preserves cs heap₀.length ops ⟨heap₀, []⟩
    (le_refl _) (fun a ha => absurd ha (List.not_mem_nil a))
  refine ⟨?_, ?_, ?_, hrun.2.2 cs.defaultAddr hd, hrun.2.2 cs.headersAddr hh⟩
  · exact List.getElem?_concat_length heap₀
      (dupdate (heap₀.getD cs.defaultAddr []) (heap₀.getD cs.headersAddr []))
  · show heap₀.length ≠ cs.defaultAddr
    omega
  · show heap₀.length ≠ cs.headersAddr
    omega

/-- C9 (witness): two calls with a caller mutation of the first returned
mapping in between: both class-level tables are unchanged, and a single
call returns the merged headers at a fresh address. -/
theorem C9_witness :
    (runHeaderOps ⟨0, 1⟩ ⟨[[("User-Agent", "ua")], [("Accept", "x")]], []⟩
        [HeaderOp.call, HeaderOp.mutate 0 [("Hacked", "yes")],
         HeaderOp.call]).heap[0]?
      = some [("User-Agent", "ua")] ∧
    (runHeaderOps ⟨0, 1⟩ ⟨[[("User-Agent", "ua")], [("Accept", "x")]], []⟩
        [HeaderOp.call, HeaderOp.mutate 0 [("Hacked", "yes")],
         HeaderOp.call]).heap[1]?
      = some [("Accept", "x")] ∧
    (get_headers ⟨0, 1⟩ [[("User-Agent", "ua")], [("Accept", "x")]]).1[
        (get_headers ⟨0, 1⟩ [[("User-Agent", "ua")], [("Accept", "x")]]).2]?
      = some [("User-Agent", "ua"), ("Accept", "x")] := by
  have h := C9_get_headers_fresh_and_pure ⟨0, 1⟩
    [[("User-Agent", "ua")], [("Accept", "x")]]
    [HeaderOp.call, HeaderOp.mutate 0 [("Hacked", "yes")], HeaderOp.call]
    (by decide) (by decide)
  exact ⟨h.2.2.2.1.trans (by decide), h.2.2.2.2.trans (by decide),
    h.1.trans (by decide)⟩

/-- C10: the structured `non_field_errors` are extracted from the JSON
parse of the full response body, so they are never truncated: whenever
extraction succeeds and the body is non-empty, the raised message appends
the full structured lines, identically with and without the debug flag;
the 300-character truncation touches only the raw-text fallback and the
emptiness gate. -/
theorem C10_structured_errors_never_truncated {α : Type}
    (login : Option String) (dmsg : String) (p : Response → α) (r : Response)
    (st : ClassState) (nfe : String) (hok : r.ok = false)
    (hx : extractNonFieldErrors r.jsonBody = some nfe) (hne : r.text ≠ "") :
    (verify true login dmsg p r st).2 = Except.error (PyError.apiRequestError
        (classifiedMsg login dmsg r st ++ "\n\n" ++ nfe)) ∧
    (verify false login dmsg p r st).2 = Except.error (PyError.apiRequestError
        (classifiedMsg login dmsg r st ++ "\n\n" ++ nfe)) := by
  have h300 : strTake r.text 300 ≠ "" := strTake_ne_empty r.text 300 (by omega) hne
  constructor
  · simp [verify, hok, hx, hne, classifiedMsg]
  · simp [verify, hok, hx, h300, classifiedMsg]

/-- C10 (witness): a 403 response whose body text is 340 characters and
whose `non_field_errors` holds a 320-character line: with the debug flag
unset the full structured line (well beyond 300 characters) is appended,
untruncated, after the classified message. -/
theorem C10_witness :
    (verify false none SERVER_ERROR (fun _ => (0 : Nat)) rNfe initClassState).2
      = Except.error (PyError.apiRequestError
          (AUTH_INVALID_TOKEN ++ "\n\n" ++ (longErrorLine ++ "\n" ++ "b"))) := by
  have h := C10_structured_errors_never_truncated none SERVER_ERROR
    (fun _ => (0 : Nat)) rNfe initClassState (longErrorLine ++ "\n" ++ "b")
    (by decide) (by decide) (by decide)
  exact h.2.trans (by decide)

end DivioCli
